import Mathlib

/-!
Verification of the setup-status evaluator (`src/utils/setupFlow.ts`) and the
one-time-password store of the forgot-password flow (`src/routes/auth.ts`)
of the motortrace backend, as a shallow embedding in Lean.
-/

namespace MotorTrace

/-- JavaScript truthiness of a nullable string field: `null` and the empty
string are falsy, every other string is truthy. -/
def truthy : Option String → Bool
  | none => false
  | some s => !(s == "")

/-- A subscription row (`Subscription` model); only the `status` field
("active" / "cancelled" / "expired") is consulted by the evaluator. -/
structure Subscription where
  status : String
deriving Repr, DecidableEq

/-- The slice of the `User` model (with its included relations) read by
`checkSetupStatus`: the nullable `phone`, the `role` string, presence of the
three role-profile rows, the number of `vehicles` rows, and the optional
`subscription` row. -/
structure User where
  phone : Option String
  role : String
  carOwnerProfile : Bool
  serviceCenterProfile : Bool
  partSellerProfile : Bool
  vehicles : Nat
  subscription : Option Subscription
deriving Repr, DecidableEq

/-- The `SetupStatus` result structure returned by `checkSetupStatus`. -/
structure SetupStatus where
  isRegistrationComplete : Bool
  isSetupComplete : Bool
  hasActiveSubscription : Bool
  missingSteps : List String
  redirectTo : Option String
deriving Repr, DecidableEq

/-- `validateRole` from `src/utils/validation.ts`: the three valid role
strings. -/
def validRoles : List String := ["car_owner", "service_center", "part_seller"]

/-- `validateRole` from `src/utils/validation.ts`. -/
def validateRole (role : String) : Bool := validRoles.contains role

/-- Line 25: `!!(user.phone && user.role && user.role !== 'car_owner')`.
`user.role` is a non-nullable string, so its JS truthiness is being
nonempty. -/
def isRegistrationCompleteOf (user : User) : Bool :=
  truthy user.phone && !(user.role == "") && !(user.role == "car_owner")

/-- Lines 33-45: the `switch (user.role)` computing `isSetupComplete`
(a TS switch on a string is a sequence of equality tests; the implicit
default leaves the flag `false`). -/
def isSetupCompleteOf (user : User) : Bool :=
  if user.role == "car_owner" then user.carOwnerProfile && decide (0 < user.vehicles)
  else if user.role == "service_center" then user.serviceCenterProfile
  else if user.role == "part_seller" then user.partSellerProfile
  else false

/-- Line 53: `!!(user.subscription && user.subscription.status === 'active')`. -/
def hasActiveSubscriptionOf (user : User) : Bool :=
  match user.subscription with
  | none => false
  | some s => s.status == "active"

/-- Line 55: the guard of the payment check. -/
def paymentMissingOf (user : User) : Bool :=
  (user.role == "service_center" || user.role == "part_seller")
    && !(hasActiveSubscriptionOf user)

/-- Lines 21-71 of `checkSetupStatus`, after the user row has been fetched:
the three sequential checks appending to `missingSteps` and overwriting
`redirectTo`, then the final reset of `redirectTo` when no step is missing. -/
def checkSetupStatusOfUser (user : User) : SetupStatus :=
  let missingSteps0 : List String := []
  let redirectTo0 : Option String := none
  let missingSteps1 :=
    if isRegistrationCompleteOf user then missingSteps0
    else missingSteps0 ++ ["registration"]
  let redirectTo1 :=
    if isRegistrationCompleteOf user then redirectTo0 else some "/setup/details"
  let missingSteps2 :=
    if isSetupCompleteOf user then missingSteps1 else missingSteps1 ++ ["profile"]
  let redirectTo2 :=
    if isSetupCompleteOf user then redirectTo1 else some "/setup/details"
  let missingSteps3 :=
    if paymentMissingOf user then missingSteps2 ++ ["payment"] else missingSteps2
  let redirectTo3 :=
    if paymentMissingOf user then some "/setup/payment" else redirectTo2
  let redirectToFinal := if missingSteps3.length == 0 then none else redirectTo3
  { isRegistrationComplete := isRegistrationCompleteOf user
    isSetupComplete := isSetupCompleteOf user
    hasActiveSubscription := hasActiveSubscriptionOf user
    missingSteps := missingSteps3
    redirectTo := redirectToFinal }

/-- The database visible to `checkSetupStatus`: the `User` rows keyed by id. -/
structure Db where
  users : List (Nat × User)
deriving Repr, DecidableEq

/-- `prisma.user.findUnique({ where: { id: userId }, include: ... })`. -/
def findUnique (db : Db) (userId : Nat) : Option User :=
  (db.users.find? (fun p => p.1 == userId)).map Prod.snd

/-- `checkSetupStatus` (lines 5-72): one read, then the pure computation;
throws `'User not found'` when the id does not resolve.  The function
performs no writes, so the database component of the state is returned
unchanged. -/
def checkSetupStatus (db : Db) (userId : Nat) : Db × Except String SetupStatus :=
  match findUnique db userId with
  | none => (db, Except.error "User not found")
  | some user => (db, Except.ok (checkSetupStatusOfUser user))

/-- `canAccessDashboard` (lines 74-76). -/
def canAccessDashboard (setupStatus : SetupStatus) : Bool :=
  setupStatus.missingSteps.length == 0

/-- `getNextSetupStep` (lines 78-80). -/
def getNextSetupStep (setupStatus : SetupStatus) : Option String :=
  setupStatus.redirectTo

/-- C1: for every account `checkSetupStatus` resolves (its role one of the
three valid role strings), `isRegistrationComplete` is true iff the account
has a nonempty phone number and a role other than `"car_owner"`; hence for a
`"car_owner"` account it is false regardless of the phone. -/
theorem registrationComplete_iff (u : User) (hrole : validateRole u.role = true) :
    ((checkSetupStatusOfUser u).isRegistrationComplete = true ↔
      (∃ p, u.phone = some p ∧ p ≠ "") ∧ u.role ≠ "car_owner")
    ∧ (u.role = "car_owner" → (checkSetupStatusOfUser u).isRegistrationComplete = false) := by
  have hroles : u.role = "car_owner" ∨ u.role = "service_center" ∨ u.role = "part_seller" := by
    simpa [validateRole, validRoles, List.contains, or_assoc] using hrole
  constructor
  · show (isRegistrationCompleteOf u = true ↔ _)
    unfold isRegistrationCompleteOf truthy
    cases hp : u.phone with
    | none =>
      simp
    | some p =>
      rcases hroles with h | h | h <;> simp [h]
  · intro h
    show isRegistrationCompleteOf u = false
    unfold isRegistrationCompleteOf
    simp [h]

/-- Witness for C1 at a concrete car-owner account with a phone number. -/
theorem registrationComplete_iff_witness :
    (checkSetupStatusOfUser
      ⟨some "+1234567890", "car_owner", true, false, false, 1, none⟩).isRegistrationComplete
      = false :=
  (registrationComplete_iff _ (by decide)).2 rfl

/-- The account of the concrete scenario of C2: role `"car_owner"`, no phone,
no `RoleProfile` row, no `Vehicle` row, no `Subscription` row, stored under
id 1. -/
def dbC2 : Db := ⟨[(1, ⟨none, "car_owner", false, false, false, 0, none⟩)]⟩

/-- C2 counterexample: on the concrete scenario the claim asserts
`missingSteps = ["profile"]`, but the code also records `"registration"`,
because a car-owner account never satisfies the registration predicate. -/
theorem checkSetupStatus_carOwner_missingSteps_ne_profile_only :
    (Except.map SetupStatus.missingSteps (checkSetupStatus dbC2 1).2).toOption
      = some ["registration", "profile"]
    ∧ (["registration", "profile"] : List String) ≠ ["profile"] := by
  constructor
  · rfl
  · decide

/-- C2 amended: on the concrete scenario `checkSetupStatus` returns
`registrationComplete = false`, `setupComplete = false`,
`missingSteps = ["registration", "profile"]` and
`redirectTo = '/setup/details'`. -/
theorem checkSetupStatus_carOwner_empty_scenario :
    (checkSetupStatus dbC2 1).2.toOption =
      some { isRegistrationComplete := false
             isSetupComplete := false
             hasActiveSubscription := false
             missingSteps := ["registration", "profile"]
             redirectTo := some "/setup/details" } := rfl

/-- C3: for every account with a business role and no active subscription for
which the registration check or the profile check also fails, `redirectTo`
ends up at the payment route (each failing check unconditionally overwrites
it and the payment check runs last), while the failed earlier steps still
precede `"payment"` in `missingSteps`. -/
theorem redirectTo_last_write_wins (u : User)
    (hrole : u.role = "service_center" ∨ u.role = "part_seller")
    (hsub : hasActiveSubscriptionOf u = false)
    (hfail : isRegistrationCompleteOf u = false ∨ isSetupCompleteOf u = false) :
    (checkSetupStatusOfUser u).redirectTo = some "/setup/payment"
    ∧ ∃ pre, pre ≠ [] ∧ pre.Sublist ["registration", "profile"]
        ∧ (checkSetupStatusOfUser u).missingSteps = pre ++ ["payment"] := by
  have hpay : paymentMissingOf u = true := by
    rcases hrole with h | h <;> simp [paymentMissingOf, h, hsub]
  cases hreg : isRegistrationCompleteOf u <;> cases hset : isSetupCompleteOf u
  · exact ⟨by simp [checkSetupStatusOfUser, hreg, hset, hpay],
      ["registration", "profile"], by decide, by decide,
      by simp [checkSetupStatusOfUser, hreg, hset, hpay]⟩
  · exact ⟨by simp [checkSetupStatusOfUser, hreg, hset, hpay],
      ["registration"], by decide, by decide,
      by simp [checkSetupStatusOfUser, hreg, hset, hpay]⟩
  · exact ⟨by simp [checkSetupStatusOfUser, hreg, hset, hpay],
      ["profile"], by decide, by decide,
      by simp [checkSetupStatusOfUser, hreg, hset, hpay]⟩
  · rcases hfail with h | h
    · exact absurd hreg (by simp [h])
    · exact absurd hset (by simp [h])

/-- Witness for C3 at the concrete account of the spec scenario:
role `"service_center"`, no phone, no `RoleProfile` row, no `Subscription`
row. -/
theorem redirectTo_last_write_wins_witness :
    (checkSetupStatusOfUser
      ⟨none, "service_center", false, false, false, 0, none⟩).redirectTo
      = some "/setup/payment"
    ∧ ∃ pre, pre ≠ [] ∧ pre.Sublist ["registration", "profile"]
        ∧ (checkSetupStatusOfUser
            ⟨none, "service_center", false, false, false, 0, none⟩).missingSteps
          = pre ++ ["payment"] :=
  redirectTo_last_write_wins _ (Or.inl rfl) (by decide) (Or.inl (by decide))

/-- C4: `isSetupComplete` is role-dependent: for `"car_owner"` it requires
the car-owner profile row and at least one vehicle, for `"service_center"`
the service-center profile row, for `"part_seller"` the part-seller profile
row; in particular a car-owner account with a profile row but zero vehicles
has `isSetupComplete = false` and `"profile"` in `missingSteps`. -/
theorem setupComplete_role_dependent (u : User) :
    (u.role = "car_owner" →
      ((checkSetupStatusOfUser u).isSetupComplete = true ↔
        u.carOwnerProfile = true ∧ 0 < u.vehicles))
    ∧ (u.role = "service_center" →
      ((checkSetupStatusOfUser u).isSetupComplete = true ↔
        u.serviceCenterProfile = true))
    ∧ (u.role = "part_seller" →
      ((checkSetupStatusOfUser u).isSetupComplete = true ↔
        u.partSellerProfile = true))
    ∧ (u.role = "car_owner" → u.carOwnerProfile = true → u.vehicles = 0 →
      (checkSetupStatusOfUser u).isSetupComplete = false
        ∧ "profile" ∈ (checkSetupStatusOfUser u).missingSteps) := by
  have hset : (checkSetupStatusOfUser u).isSetupComplete = isSetupCompleteOf u := rfl
  refine ⟨?_, ?_, ?_, ?_⟩
  · intro h
    rw [hset]
    simp [isSetupCompleteOf, h]
  · intro h
    rw [hset]
    simp [isSetupCompleteOf, h]
  · intro h
    rw [hset]
    simp [isSetupCompleteOf, h]
  · intro h hprof hveh
    have hfalse : isSetupCompleteOf u = false := by
      simp [isSetupCompleteOf, h, hveh]
    constructor
    · rw [hset]; exact hfalse
    · cases hreg : isRegistrationCompleteOf u <;>
        cases hpay : paymentMissingOf u <;>
        simp [checkSetupStatusOfUser, hreg, hfalse, hpay]

/-- Witness for C4 at a concrete car-owner account with a profile row and
zero vehicles. -/
theorem setupComplete_role_dependent_witness :
    (checkSetupStatusOfUser
      ⟨some "+1234567890", "car_owner", true, false, false, 0, none⟩).isSetupComplete = false
    ∧ "profile" ∈ (checkSetupStatusOfUser
      ⟨some "+1234567890", "car_owner", true, false, false, 0, none⟩).missingSteps :=
  (setupComplete_role_dependent _).2.2.2 rfl rfl rfl

/-- C5: `hasActiveSubscription` is true iff a subscription row exists whose
status is exactly `"active"`, and is always false when no row exists. -/
theorem hasActiveSubscription_iff (u : User) :
    ((checkSetupStatusOfUser u).hasActiveSubscription = true ↔
      ∃ s, u.subscription = some s ∧ s.status = "active")
    ∧ (u.subscription = none →
      (checkSetupStatusOfUser u).hasActiveSubscription = false) := by
  have hsub : (checkSetupStatusOfUser u).hasActiveSubscription
      = hasActiveSubscriptionOf u := rfl
  rw [hsub]
  constructor
  · unfold hasActiveSubscriptionOf
    cases h : u.subscription with
    | none => simp
    | some s => simp
  · intro h
    simp [hasActiveSubscriptionOf, h]

/-- Witness for C5 at a concrete account whose subscription row has status
`"cancelled"`. -/
theorem hasActiveSubscription_iff_witness :
    (checkSetupStatusOfUser
      ⟨some "+1234567890", "part_seller", false, false, true, 0,
        some ⟨"cancelled"⟩⟩).hasActiveSubscription = false
    ∧ ¬ ∃ s, (some (Subscription.mk "cancelled") : Option Subscription) = some s
        ∧ s.status = "active" := by
  have h := (hasActiveSubscription_iff
    ⟨some "+1234567890", "part_seller", false, false, true, 0,
      some ⟨"cancelled"⟩⟩).1
  constructor
  · cases hb : (checkSetupStatusOfUser
      ⟨some "+1234567890", "part_seller", false, false, true, 0,
        some ⟨"cancelled"⟩⟩).hasActiveSubscription
    · rfl
    · exact absurd (h.mp hb) (by decide)
  · decide

/-- C6: a business-role account (`"service_center"` or `"part_seller"`) with
no subscription row gets `hasActiveSubscription = false` and `"payment"` in
`missingSteps`. -/
theorem business_no_subscription_payment (u : User)
    (hrole : u.role = "service_center" ∨ u.role = "part_seller")
    (hsub : u.subscription = none) :
    (checkSetupStatusOfUser u).hasActiveSubscription = false
    ∧ "payment" ∈ (checkSetupStatusOfUser u).missingSteps := by
  have hact : hasActiveSubscriptionOf u = false := by
    simp [hasActiveSubscriptionOf, hsub]
  have hpay : paymentMissingOf u = true := by
    rcases hrole with h | h <;> simp [paymentMissingOf, h, hact]
  constructor
  · exact hact
  · cases hreg : isRegistrationCompleteOf u <;>
      cases hset : isSetupCompleteOf u <;>
      simp [checkSetupStatusOfUser, hreg, hset, hpay]

/-- Witness for C6 at a concrete service-center account with no
subscription row. -/
theorem business_no_subscription_payment_witness :
    (checkSetupStatusOfUser
      ⟨some "+1234567890", "service_center", false, true, false, 0, none⟩).hasActiveSubscription
      = false
    ∧ "payment" ∈ (checkSetupStatusOfUser
      ⟨some "+1234567890", "service_center", false, true, false, 0, none⟩).missingSteps :=
  business_no_subscription_payment _ (Or.inl rfl) rfl

/-- C7: `missingSteps` is always a sublist of
`["registration", "profile", "payment"]` (so it draws from that set, without
repetition, in that fixed order); `"payment"` occurs only for the two
business roles and never for `"car_owner"`; `redirectTo` is `none` when
`missingSteps` is empty and one of the two fixed routes otherwise. -/
theorem missingSteps_invariants (u : User) :
    (checkSetupStatusOfUser u).missingSteps.Sublist ["registration", "profile", "payment"]
    ∧ ("payment" ∈ (checkSetupStatusOfUser u).missingSteps →
        u.role = "service_center" ∨ u.role = "part_seller")
    ∧ (u.role = "car_owner" → "payment" ∉ (checkSetupStatusOfUser u).missingSteps)
    ∧ ((checkSetupStatusOfUser u).missingSteps = [] →
        (checkSetupStatusOfUser u).redirectTo = none)
    ∧ ((checkSetupStatusOfUser u).missingSteps ≠ [] →
        (checkSetupStatusOfUser u).redirectTo = some "/setup/details"
        ∨ (checkSetupStatusOfUser u).redirectTo = some "/setup/payment") := by
  have hbus : paymentMissingOf u = true →
      u.role = "service_center" ∨ u.role = "part_seller" := by
    intro h
    rcases Bool.and_eq_true _ _ |>.mp h with ⟨h1, _⟩
    rcases Bool.or_eq_true _ _ |>.mp h1 with h2 | h2
    · exact Or.inl (by simpa using h2)
    · exact Or.inr (by simpa using h2)
  cases hreg : isRegistrationCompleteOf u <;>
    cases hset : isSetupCompleteOf u <;>
    cases hpay : paymentMissingOf u <;>
    refine ⟨?_, ?_, ?_, ?_, ?_⟩ <;>
    simp [checkSetupStatusOfUser, hreg, hset, hpay] <;>
    first
    | exact hbus hpay
    | (intro h
       rcases hbus hpay with hb | hb <;> rw [h] at hb <;> exact absurd hb (by decide))

/-- Witness for C7 at a concrete fully-set-up part-seller account. -/
theorem missingSteps_invariants_witness :
    (checkSetupStatusOfUser
      ⟨some "+1234567890", "part_seller", false, false, true, 0,
        some ⟨"active"⟩⟩).missingSteps = []
    ∧ (checkSetupStatusOfUser
      ⟨some "+1234567890", "part_seller", false, false, true, 0,
        some ⟨"active"⟩⟩).redirectTo = none :=
  ⟨rfl, (missingSteps_invariants _).2.2.2.1 rfl⟩

/-- C8: `checkSetupStatus` fails iff the account id does not resolve, the
only error is `'User not found'`, and the database state is returned
unchanged in both the success and the error case (the function only
reads). -/
theorem checkSetupStatus_error_iff (db : Db) (userId : Nat) :
    (checkSetupStatus db userId).1 = db
    ∧ ((∃ e, (checkSetupStatus db userId).2 = Except.error e) ↔
        findUnique db userId = none)
    ∧ (∀ e, (checkSetupStatus db userId).2 = Except.error e →
        e = "User not found")
    ∧ (findUnique db userId = none →
        (checkSetupStatus db userId).2 = Except.error "User not found") := by
  unfold checkSetupStatus
  cases h : findUnique db userId with
  | none => simp
  | some user => simp

/-- Witness for C8 on a concrete one-row database: a missing id errors with
`'User not found'` and leaves the database unchanged. -/
theorem checkSetupStatus_error_iff_witness :
    (checkSetupStatus (Db.mk [(1, ⟨none, "car_owner", false, false, false, 0, none⟩)]) 2).1
      = Db.mk [(1, ⟨none, "car_owner", false, false, false, 0, none⟩)]
    ∧ (checkSetupStatus (Db.mk [(1, ⟨none, "car_owner", false, false, false, 0, none⟩)]) 2).2
      = Except.error "User not found" :=
  ⟨(checkSetupStatus_error_iff _ 2).1,
    (checkSetupStatus_error_iff _ 2).2.2.2 rfl⟩

/-- C9: `canAccessDashboard` is true exactly when `missingSteps` is empty,
`getNextSetupStep` returns exactly the `redirectTo` field, and for every
account on which `checkSetupStatus` succeeds, dashboard access is granted
exactly when no setup step is missing. -/
theorem canAccessDashboard_iff (s : SetupStatus) :
    (canAccessDashboard s = true ↔ s.missingSteps = [])
    ∧ getNextSetupStep s = s.redirectTo
    ∧ (∀ db userId st, (checkSetupStatus db userId).2 = Except.ok st →
        (canAccessDashboard st = true ↔ st.missingSteps = [])) := by
  refine ⟨?_, rfl, ?_⟩
  · simp [canAccessDashboard, List.length_eq_zero]
  · intro db userId st _
    simp [canAccessDashboard, List.length_eq_zero]

/-- Witness for C9 at a concrete status with one missing step. -/
theorem canAccessDashboard_iff_witness :
    canAccessDashboard
      { isRegistrationComplete := true, isSetupComplete := true,
        hasActiveSubscription := false, missingSteps := ["payment"],
        redirectTo := some "/setup/payment" } = false := by
  have h := (canAccessDashboard_iff
    { isRegistrationComplete := true, isSetupComplete := true,
      hasActiveSubscription := false, missingSteps := ["payment"],
      redirectTo := some "/setup/payment" }).1
  cases hb : canAccessDashboard
    { isRegistrationComplete := true, isSetupComplete := true,
      hasActiveSubscription := false, missingSteps := ["payment"],
      redirectTo := some "/setup/payment" }
  · rfl
  · exact absurd (h.mp hb) (by decide)

/-- An entry of the in-memory `otpStore`: the generated code and the
`expires` timestamp (`Date.now() + 10 * 60 * 1000` at creation). -/
structure OtpRecord where
  otp : String
  expires : Nat
deriving Repr, DecidableEq

/-- The in-memory `otpStore` (`new Map()`), keyed by email. -/
abbrev OtpStore := List (String × OtpRecord)

/-- `otpStore.get(email)`. -/
def otpGet (store : OtpStore) (email : String) : Option OtpRecord :=
  (store.find? (fun p => p.1 == email)).map Prod.snd

/-- `otpStore.set(email, record)`: replaces any previous entry for the key. -/
def otpSet (store : OtpStore) (email : String) (r : OtpRecord) : OtpStore :=
  (email, r) :: store.filter (fun p => !(p.1 == email))

/-- `otpStore.delete(email)`. -/
def otpDelete (store : OtpStore) (email : String) : OtpStore :=
  store.filter (fun p => !(p.1 == email))

/-- The store mutation of the `/forgot-password` handler:
`otpStore.set(email, { otp, expires: Date.now() + 10 * 60 * 1000 })`. -/
def forgotPasswordStore (store : OtpStore) (email otp : String) (now : Nat) :
    OtpStore :=
  otpSet store email { otp := otp, expires := now + 10 * 60 * 1000 }

/-- The `/verify-otp` handler's store logic (lines 765-776 of
`src/routes/auth.ts`): reject when no record exists, the submitted otp
differs, or `Date.now() > record.expires`; otherwise delete the record and
succeed. -/
def verifyOtp (store : OtpStore) (email otp : String) (now : Nat) :
    OtpStore × Except String String :=
  match otpGet store email with
  | none => (store, Except.error "Invalid or expired OTP")
  | some record =>
    if !(record.otp == otp) || decide (record.expires < now) then
      (store, Except.error "Invalid or expired OTP")
    else
      (otpDelete store email, Except.ok "OTP verified")

theorem otpGet_otpDelete (store : OtpStore) (email : String) :
    otpGet (otpDelete store email) email = none := by
  induction store with
  | nil => rfl
  | cons p rest ih =>
    unfold otpDelete at ih ⊢
    unfold otpGet at ih ⊢
    cases hp : (p.1 == email) <;> simp [List.filter_cons, hp, List.find?, ih]

theorem verifyOtp_of_get_none (store : OtpStore) (email otp : String) (now : Nat)
    (h : otpGet store email = none) :
    verifyOtp store email otp now = (store, Except.error "Invalid or expired OTP") := by
  unfold verifyOtp
  rw [h]

theorem verifyOtp_of_get_some (store : OtpStore) (email otp : String) (now : Nat)
    (r : OtpRecord) (h : otpGet store email = some r) :
    verifyOtp store email otp now =
      if !(r.otp == otp) || decide (r.expires < now) then
        (store, Except.error "Invalid or expired OTP")
      else (otpDelete store email, Except.ok "OTP verified") := by
  unfold verifyOtp
  rw [h]

/-- C10: an OTP is accepted at most once: `/verify-otp` succeeds iff a
record for the email exists, the submitted otp equals the stored one and the
current time is not past the stored expiry; on success the record is deleted
so every later verification for that email fails until a new record is
stored; on failure the store is unchanged and the request is rejected with
an error. -/
theorem verifyOtp_single_use (store : OtpStore) (email otp : String) (now : Nat) :
    ((verifyOtp store email otp now).2 = Except.ok "OTP verified" ↔
      ∃ r, otpGet store email = some r ∧ r.otp = otp ∧ now ≤ r.expires)
    ∧ ((verifyOtp store email otp now).2 = Except.ok "OTP verified" →
        otpGet (verifyOtp store email otp now).1 email = none
        ∧ ∀ otp2 now2,
          (verifyOtp (verifyOtp store email otp now).1 email otp2 now2).2
            = Except.error "Invalid or expired OTP")
    ∧ ((verifyOtp store email otp now).2 ≠ Except.ok "OTP verified" →
        (verifyOtp store email otp now).1 = store
        ∧ (verifyOtp store email otp now).2
          = Except.error "Invalid or expired OTP") := by
  cases hg : otpGet store email with
  | none =>
    rw [verifyOtp_of_get_none store email otp now hg]
    simp [hg]
  | some record =>
    rw [verifyOtp_of_get_some store email otp now record hg]
    by_cases hok : record.otp = otp ∧ now ≤ record.expires
    · have hcond : (!(record.otp == otp) || decide (record.expires < now)) = false := by
        simp [hok.1, Nat.not_lt.mpr hok.2]
      rw [hcond]
      refine ⟨?_, ?_, ?_⟩
      · simp only [if_neg Bool.false_ne_true]
        constructor
        · intro _
          exact ⟨record, rfl, hok.1, hok.2⟩
        · intro _
          trivial
      · intro _
        have hdel := otpGet_otpDelete store email
        simp only [if_neg Bool.false_ne_true]
        refine ⟨hdel, ?_⟩
        intro otp2 now2
        rw [verifyOtp_of_get_none (otpDelete store email) email otp2 now2 hdel]
      · intro h
        exact absurd (by simp) h
    · have hcond : (!(record.otp == otp) || decide (record.expires < now)) = true := by
        rcases Decidable.not_and_iff_or_not.mp hok with h | h
        · simp [h]
        · simp [Nat.lt_of_not_le h]
      rw [hcond]
      simp only [if_pos rfl]
      refine ⟨?_, ?_, ?_⟩
      · constructor
        · intro h
          exact absurd h (by simp)
        · rintro ⟨r, hr, h1, h2⟩
          cases hr
          exact absurd ⟨h1, h2⟩ hok
      · intro h
        exact absurd h (by simp)
      · intro _
        exact ⟨rfl, rfl⟩

/-- Witness for C10: a stored OTP verifies once and the immediate retry with
the very same submission is rejected. -/
theorem verifyOtp_single_use_witness :
    (verifyOtp [("a@b.com", ⟨"123456", 1000⟩)] "a@b.com" "123456" 500).2
      = Except.ok "OTP verified"
    ∧ (verifyOtp
        (verifyOtp [("a@b.com", ⟨"123456", 1000⟩)] "a@b.com" "123456" 500).1
        "a@b.com" "123456" 500).2 = Except.error "Invalid or expired OTP" := by
  constructor
  · rfl
  · exact ((verifyOtp_single_use [("a@b.com", ⟨"123456", 1000⟩)]
      "a@b.com" "123456" 500).2.1 rfl).2 "123456" 500

end MotorTrace
